import Mathlib

/-!
Shallow embedding of the core of the real-estate-dashboard repository:
the region code registry (src/region_code_mapper.py), the schema detector
and normalizer (src/data_transformer.py), and the preprocessing pipeline
(preprocess_data in src/app.py).

Tables are modelled column-name-positionally: a table is a list of column
names together with rows, each row a list of cell values aligned with the
column list.  Cell values are modelled by the inductive type Val: pandas
NaN and Python None are both modelled as Val.na, Python ints as Val.int,
floats as exact rationals Val.num (the claims never depend on binary
floating point rounding), strings as Val.str; datetime64 values produced
by pd.to_datetime are modelled as Val.date, and the IEEE infinities that
pandas division can produce as Val.inf / Val.ninf.

Python library semantics used by the source are embedded as explicit
functions: pythonStr models str(), pythonInt models int() on a string
(optional sign, decimal digits, single underscores between digits,
surrounding whitespace), parseFloatQ models the plain decimal forms of
float() as used by pd.to_numeric, zfill2 models str.zfill(2), and
parseYMD models pd.to_datetime(s, format of YYYYMMDD) including CPython
strptime's four-digit year with one-or-two-digit month and day and the
pandas Timestamp range bounds.
-/

namespace RealEstate

/-- An exact fraction with positive denominator, the model of Python
float values (no claim depends on binary rounding, so floats are carried
exactly); kept unnormalized so that all arithmetic is plain integer
arithmetic. -/
structure Frac where
  num : Int
  den : Nat
deriving DecidableEq

/-- A fraction from an integer. -/
def Frac.ofInt (n : Int) : Frac := ⟨n, 1⟩

/-- Fraction division, keeping the denominator positive; only used with a
nonzero divisor. -/
def fracDiv (a b : Frac) : Frac :=
  if b.num ≥ 0 then ⟨a.num * (b.den : Int), a.den * b.num.toNat⟩
  else ⟨-(a.num * (b.den : Int)), a.den * b.num.natAbs⟩

/-- A pandas cell value. -/
inductive Val where
  | na : Val
  | str : String → Val
  | int : Int → Val
  | num : Frac → Val
  | date : Nat → Nat → Nat → Val
  | inf : Val
  | ninf : Val
deriving DecidableEq

/-- A DataFrame: named columns and rows of cells aligned with the column list. -/
structure Table where
  cols : List String
  rows : List (List Val)
deriving DecidableEq

/-- Streamlit session state relevant to the pipeline: the stored value of
st.session_state of cancelled_count, none when never assigned. -/
structure Sess where
  cancelled_count : Option Nat
deriving DecidableEq

/-- Models st.session_state.get of cancelled_count with default 0, the way
the presentation layer reads the count. -/
def reportedCount (s : Sess) : Nat := s.cancelled_count.getD 0

/-- Models Python str.strip(): drop whitespace from both ends. -/
def pyStrip (s : String) : String :=
  String.mk (((s.toList.dropWhile Char.isWhitespace).reverse.dropWhile
    Char.isWhitespace).reverse)

/-- Models str.replace of the comma by the empty string: every comma
removed. -/
def removeCommas (s : String) : String :=
  String.mk (s.toList.filter (fun c => c ≠ ','))

/-- Whether a string contains a decimal point, models the Python
membership test of the dot in a string. -/
def strContainsDot (s : String) : Bool := s.toList.any (fun c => c = '.')

/-- Everything before the first decimal point, models split at the dot
taking the first part. -/
def takeBeforeDot (s : String) : String :=
  String.mk (s.toList.takeWhile (fun c => c ≠ '.'))

/-- Value of digit characters, helper for parsing. -/
def digitsToNat (cs : List Char) : Nat := cs.foldl (fun a c => a * 10 + (c.toNat - 48)) 0

/-- Digits possibly separated by single underscores, as accepted by Python
int() after the first character; returns the accumulated value. -/
def digitCore : List Char → Nat → Option Nat
  | [], acc => some acc
  | c :: cs, acc =>
    if c.isDigit then digitCore cs (acc * 10 + (c.toNat - 48))
    else if c = '_' then
      match cs with
      | c2 :: _ => if c2.isDigit then digitCore cs acc else none
      | [] => none
    else none

/-- Nonempty digit run starting with a digit, with Python int() underscore rules. -/
def parseUnsignedInt : List Char → Option Nat
  | [] => none
  | c :: cs => if c.isDigit then digitCore (c :: cs) 0 else none

/-- Models Python int() applied to a string: surrounding whitespace allowed,
optional sign, then decimal digits with optional single underscores. -/
def pythonInt (s : String) : Option Int :=
  let cs := (pyStrip s).toList
  match cs with
  | '+' :: rest => (parseUnsignedInt rest).map (fun n => (n : Int))
  | '-' :: rest => (parseUnsignedInt rest).map (fun n => -(n : Int))
  | _ => (parseUnsignedInt cs).map (fun n => (n : Int))

/-- Fractional decimal digits of num over den, with fuel; used to render
rationals the way Python prints terminating floats. -/
def fracDigits : Nat → Nat → Nat → String
  | 0, _, _ => ""
  | fuel + 1, num, den =>
    if num = 0 then ""
    else
      let n10 := num * 10
      toString (n10 / den) ++ fracDigits fuel (n10 % den) den

/-- Decimal rendering of a fraction, modelling str() of a Python float. -/
def decimalRepr (q : Frac) : String :=
  let sgn := if q.num < 0 then "-" else ""
  let n := q.num.natAbs
  let d := q.den
  let ip := n / d
  let fr := n % d
  if fr = 0 then sgn ++ toString ip ++ ".0"
  else sgn ++ toString ip ++ "." ++ fracDigits 30 fr d

/-- Models Python str() on a cell value; str of float nan is the string nan. -/
def pythonStr : Val → String
  | .str s => s
  | .int n => toString n
  | .num q => decimalRepr q
  | .na => "nan"
  | .date y m d => toString y ++ "-" ++ toString m ++ "-" ++ toString d
  | .inf => "inf"
  | .ninf => "-inf"

/-- Python truthiness of a cell value; note float nan is truthy in Python. -/
def pyTruthy : Val → Bool
  | .str s => s ≠ ""
  | .int n => n ≠ 0
  | .num q => q.num ≠ 0
  | _ => true

/-- Plain decimal body of Python float(): digits, optionally a dot and more
digits, at least one digit overall. -/
def parseFloatBody (cs : List Char) : Option Frac :=
  let intPart := cs.takeWhile Char.isDigit
  let rest := cs.dropWhile Char.isDigit
  match rest with
  | [] => if intPart.isEmpty then none else some (Frac.ofInt (digitsToNat intPart))
  | '.' :: frac =>
    if frac.all Char.isDigit ∧ ¬ (intPart.isEmpty ∧ frac.isEmpty) then
      some ⟨digitsToNat intPart * 10 ^ frac.length + digitsToNat frac, 10 ^ frac.length⟩
    else none
  | _ => none

/-- Models Python float() on a string in plain decimal notation (the forms
produced by the spreadsheet sources), as used by pd.to_numeric. -/
def parseFloatQ (s : String) : Option Frac :=
  match (pyStrip s).toList with
  | '+' :: rest => parseFloatBody rest
  | '-' :: rest => (parseFloatBody rest).map (fun q => Frac.mk (-q.num) q.den)
  | cs => parseFloatBody cs

/-- Models pd.to_numeric with errors coerce on one cell: numbers pass
through, strings are parsed as floats, anything unparsable becomes NaN. -/
def toNumericCoerce (v : Val) : Val :=
  match v with
  | .str s => match parseFloatQ s with | some q => .num q | none => .na
  | .na => .na
  | x => x

/-- Models Python int() applied to a cell value: ints pass through, floats
truncate toward zero, strings parse via pythonInt, nan and None raise. -/
def pyIntCast : Val → Option Int
  | .int n => some n
  | .num q => some (q.num / (q.den : Int))
  | .str s => pythonInt s
  | _ => none

/-- Models str.zfill(2): left-pad with zeros to width two, keeping a
leading sign in front of the padding. -/
def zfill2 (s : String) : String :=
  if s.length ≥ 2 then s
  else
    match s.toList with
    | [] => "00"
    | [c] => if c = '+' ∨ c = '-' then String.mk [c, '0'] else String.mk ['0', c]
    | _ => s

/-- Positional cell access: models pandas row.get(c, dflt) inside a
DataFrame whose column list is cols; a present column yields the cell (a
missing cell of an ill-formed row degrades to NaN), an absent column
yields the default. -/
def rowGet (cols : List String) (row : List Val) (c : String) (dflt : Val) : Val :=
  match cols.indexOf? c with
  | some i => row.getD i Val.na
  | none => dflt

/-- Column extraction, models df of a column name: some list of the cells
when the column exists, none (a KeyError) otherwise. -/
def Table.getCol? (t : Table) (c : String) : Option (List Val) :=
  match t.cols.indexOf? c with
  | some i => some (t.rows.map (fun r => r.getD i Val.na))
  | none => none

/-- Column assignment, models df assignment at a column name: replaces the
column in place when it exists, otherwise appends it on the right. -/
def setCol (df : Table) (c : String) (vs : List Val) : Table :=
  match df.cols.indexOf? c with
  | some i => ⟨df.cols, (df.rows.zip vs).map (fun p => p.1.set i p.2)⟩
  | none => ⟨df.cols ++ [c], (df.rows.zip vs).map (fun p => p.1 ++ [p.2])⟩

/-- A pandas column has object dtype exactly when it holds Python string
objects; numeric and all-missing columns are int64 or float64. -/
def colIsObject (col : List Val) : Bool :=
  col.any (fun v => match v with | .str _ => true | _ => false)

/-- Option-valued traversal of a list, stopping at the first failure; used
to model pandas whole-column operations that raise on a bad element. -/
def traverseOpt (f : α → Option β) : List α → Option (List β)
  | [] => some []
  | a :: as =>
    match f a, traverseOpt f as with
    | some b, some bs => some (b :: bs)
    | _, _ => none

/-! Region Code Registry, embedding src/region_code_mapper.py. -/

/-- The static Seoul district registry REGION_CODE_MAP of
src/region_code_mapper.py, all 25 entries. -/
def REGION_CODE_MAP : List (String × String) := [
  ("11110", "서울특별시 종로구"),
  ("11140", "서울특별시 중구"),
  ("11170", "서울특별시 용산구"),
  ("11200", "서울특별시 성동구"),
  ("11215", "서울특별시 광진구"),
  ("11230", "서울특별시 동대문구"),
  ("11260", "서울특별시 중랑구"),
  ("11290", "서울특별시 성북구"),
  ("11305", "서울특별시 강북구"),
  ("11320", "서울특별시 도봉구"),
  ("11350", "서울특별시 노원구"),
  ("11380", "서울특별시 은평구"),
  ("11410", "서울특별시 서대문구"),
  ("11440", "서울특별시 마포구"),
  ("11470", "서울특별시 양천구"),
  ("11500", "서울특별시 강서구"),
  ("11530", "서울특별시 구로구"),
  ("11545", "서울특별시 금천구"),
  ("11560", "서울특별시 영등포구"),
  ("11590", "서울특별시 동작구"),
  ("11620", "서울특별시 관악구"),
  ("11650", "서울특별시 서초구"),
  ("11680", "서울특별시 강남구"),
  ("11710", "서울특별시 송파구"),
  ("11740", "서울특별시 강동구")]

/-- Code normalization shared by get_sigungu_name and
is_valid_region_code: str() then strip(), then drop everything from the
first decimal point (split at dot, first part). -/
def normalizeCode (v : Val) : String :=
  let code_str := pyStrip (pythonStr v)
  if strContainsDot code_str then takeBeforeDot code_str else code_str

/-- Embeds get_sigungu_name of src/region_code_mapper.py.  The argument is
an Option, none modelling the Python None input; the second component of
the result records whether the unknown-code warning was emitted. -/
def get_sigungu_name (code : Option Val) : String × Bool :=
  match code with
  | none => ("", false)
  | some v =>
    let code_str := normalizeCode v
    match REGION_CODE_MAP.lookup code_str with
    | some region_name => (region_name, false)
    | none => (code_str, true)

/-- Embeds is_valid_region_code of src/region_code_mapper.py. -/
def is_valid_region_code (code : Option Val) : Bool :=
  match code with
  | none => false
  | some v => (REGION_CODE_MAP.lookup (normalizeCode v)).isSome

/-! Schema detector and normalizer, embedding src/data_transformer.py. -/

/-- Errors of the transformer layer: ValueError from detect_format,
KeyError (with the missing-column list) from transform_to_legacy. -/
inductive TError where
  | valueError : TError
  | keyError : List String → TError
deriving DecidableEq

/-- Detected file format: old is the legacy shape, new the MOLIT API shape. -/
inductive FileFormat where
  | old : FileFormat
  | new : FileFormat
deriving DecidableEq

/-- Legacy format indicator columns checked by detect_format. -/
def legacy_indicators : List String := ["시군구", "단지명", "거래금액(만원)"]

/-- New MOLIT API format indicator columns checked by detect_format. -/
def new_api_indicators : List String := ["sggCd", "aptNm", "dealAmount"]

/-- Embeds detect_format of src/data_transformer.py: legacy indicators are
checked first, then the new-API indicators, else ValueError. -/
def detect_format (df : Table) : Except TError FileFormat :=
  if legacy_indicators.all (fun c => decide (c ∈ df.cols)) then .ok .old
  else if new_api_indicators.all (fun c => decide (c ∈ df.cols)) then .ok .new
  else .error .valueError

/-- The required source columns checked by transform_to_legacy; cdealDay
is deliberately not among them. -/
def requiredColumns : List String :=
  ["sggCd", "aptNm", "excluUseAr", "dealYear", "dealMonth",
   "dealDay", "dealAmount", "floor", "buildYear"]

/-- The legacy column list produced by transform_to_legacy, in order. -/
def legacyColsOrder : List String :=
  ["NO", "시군구", "단지명", "전용면적(㎡)", "계약년월", "계약일",
   "거래금액(만원)", "층", "건축년도", "해제사유발생일"]

/-- Embeds the helper generate_sigungu of src/data_transformer.py: region
lookup on sggCd combined with the trimmed dong name when that is truthy
and not missing; the Bool records the unknown-region warning. -/
def generate_sigungu (cols : List String) (row : List Val) : String × Bool :=
  let sgg_code := rowGet cols row "sggCd" (.str "")
  let umd_name := rowGet cols row "umdNm" (.str "")
  let r := get_sigungu_name (some sgg_code)
  if pyTruthy umd_name ∧ umd_name ≠ Val.na then
    (r.1 ++ " " ++ pyStrip (pythonStr umd_name), r.2)
  else (r.1, r.2)

/-- Embeds generate_contract_yearmonth of src/data_transformer.py:
int(dealYear) times 100 plus int(dealMonth), and 0 with a warning (the
Bool) when either int() raises. -/
def generate_contract_yearmonth (cols : List String) (row : List Val) : Int × Bool :=
  match pyIntCast (rowGet cols row "dealYear" (.int 0)),
        pyIntCast (rowGet cols row "dealMonth" (.int 0)) with
  | some y, some m => (y * 100 + m, false)
  | _, _ => (0, true)

/-- Embeds the private deal-amount cleaner of src/data_transformer.py
(source name with a leading underscore): 0 for missing values, otherwise
str() then comma removal then strip() then int(), degrading to 0 with a
warning (the Bool) when int() raises. -/
def clean_deal_amount (value : Val) : Int × Bool :=
  if value = Val.na then (0, false)
  else
    match pythonInt (pyStrip (removeCommas (pythonStr value))) with
    | some n => (n, false)
    | none => (0, true)

/-- Models fillna of the empty string on one cell. -/
def fillNaEmpty (v : Val) : Val := if v = Val.na then .str "" else v

/-- One output row of transform_to_legacy, for source row number i
(0-based): the ten legacy columns in order. -/
def transformRow (cols : List String) (i : Nat) (row : List Val) : List Val :=
  [Val.int (Int.ofNat i + 1),
   Val.str (generate_sigungu cols row).1,
   rowGet cols row "aptNm" .na,
   toNumericCoerce (rowGet cols row "excluUseAr" .na),
   Val.int (generate_contract_yearmonth cols row).1,
   rowGet cols row "dealDay" .na,
   Val.int (clean_deal_amount (rowGet cols row "dealAmount" .na)).1,
   rowGet cols row "floor" .na,
   rowGet cols row "buildYear" .na,
   if cols.contains "cdealDay" then fillNaEmpty (rowGet cols row "cdealDay" .na)
   else .str ""]

/-- Embeds transform_to_legacy of src/data_transformer.py.  The second
argument is the ambient Python warning log; the result pairs the
transformed table (or the KeyError on missing required columns) with the
log extended by the per-row coercion warnings, emitted column by column
in source order (region lookup, then year-month, then amount). -/
def transform_to_legacy (df : Table) (w : List String) :
    Except TError Table × List String :=
  let missing := requiredColumns.filter (fun c => decide (c ∉ df.cols))
  if missing ≠ [] then (.error (.keyError missing), w)
  else
    let rows := df.rows.enum.map (fun p => transformRow df.cols p.1 p.2)
    let w1 := w ++ df.rows.filterMap (fun r =>
      if (generate_sigungu df.cols r).2 then
        some ("Region code not found: " ++ normalizeCode (rowGet df.cols r "sggCd" (.str "")))
      else none)
    let w2 := w1 ++ df.rows.filterMap (fun r =>
      if (generate_contract_yearmonth df.cols r).2 then
        some "Failed to parse year or month" else none)
    let w3 := w2 ++ df.rows.filterMap (fun r =>
      if (clean_deal_amount (rowGet df.cols r "dealAmount" .na)).2 then
        some "Failed to parse deal amount. Using 0." else none)
    (.ok ⟨legacyColsOrder, rows⟩, w3)

/-- Embeds auto_transform of src/data_transformer.py: detect, then return
the table unchanged when legacy, else transform. -/
def auto_transform (df : Table) (w : List String) :
    Except TError Table × List String :=
  match detect_format df with
  | .error e => (.error e, w)
  | .ok .old => (.ok df, w)
  | .ok .new => transform_to_legacy df w

/-! Preprocessing pipeline, embedding preprocess_data of src/app.py. -/

/-- Errors of the preprocessing pipeline: KeyError for a missing column,
ValueError from astype(int), the to_datetime parse failure, TypeError
from arithmetic on string columns. -/
inductive PErr where
  | keyError : PErr
  | valueError : PErr
  | dateParseError : PErr
  | typeError : PErr
deriving DecidableEq

/-- Embeds the is_cancelled predicate defined inside preprocess_data of
src/app.py: missing is not cancelled; otherwise str() then strip(), and
the four placeholder literals are not cancelled. -/
def is_cancelled (v : Val) : Bool :=
  if v = Val.na then false
  else
    let val_str := pyStrip (pythonStr v)
    if val_str ∈ ["-", "", "nan", "None"] then false
    else true

/-- The cancellation-date cell of a row. -/
def cancelCell (cols : List String) (r : List Val) : Val :=
  rowGet cols r "해제사유발생일" Val.na

/-- Embeds step 0 of preprocess_data of src/app.py: when the
cancellation-date column exists, count the cancelled rows; when the count
is positive drop them and store the count in the session, when zero store
zero; when the column is absent the whole block is skipped and the
session is left untouched. -/
def cancelFilter (df : Table) (s : Sess) : Table × Sess :=
  if "해제사유발생일" ∈ df.cols then
    if (df.rows.filter (fun r => is_cancelled (cancelCell df.cols r))).length > 0 then
      (⟨df.cols, df.rows.filter (fun r => !(is_cancelled (cancelCell df.cols r)))⟩,
       ⟨some (df.rows.filter (fun r => is_cancelled (cancelCell df.cols r))).length⟩)
    else (df, ⟨some 0⟩)
  else (df, s)

/-- One amount cell under astype(str), str.replace of commas, astype(int);
none models the ValueError that astype(int) raises on a bad element. -/
def coerceAmountCell (v : Val) : Option Val :=
  (pythonInt (removeCommas (pythonStr v))).map Val.int

/-- Embeds step 1 of preprocess_data of src/app.py: when the amount column
has object dtype, strip commas and convert every element to int, raising
ValueError on the first unconvertible element; numeric columns pass
through untouched. -/
def amountStep (df : Table) : Except PErr Table :=
  match df.getCol? "거래금액(만원)" with
  | none => .error .keyError
  | some col =>
    if colIsObject col then
      match traverseOpt coerceAmountCell col with
      | some newCol => .ok (setCol df "거래금액(만원)" newCol)
      | none => .error .valueError
    else .ok df

/-- Whether a year is a leap year of the Gregorian calendar. -/
def isLeap (y : Nat) : Bool := (y % 4 = 0 ∧ y % 100 ≠ 0) ∨ y % 400 = 0

/-- Days in a month of the Gregorian calendar. -/
def daysInMonth (y m : Nat) : Nat :=
  if m = 2 then (if isLeap y then 29 else 28)
  else if m = 4 ∨ m = 6 ∨ m = 9 ∨ m = 11 then 30 else 31

/-- Calendar validity plus the pandas Timestamp range bounds (nanosecond
datetime64 spans 1677-09-22 to 2262-04-11 as whole dates). -/
def validYMD (y m d : Nat) : Bool :=
  1 ≤ m ∧ m ≤ 12 ∧ 1 ≤ d ∧ d ≤ daysInMonth y m ∧
  16770922 ≤ y * 10000 + m * 100 + d ∧ y * 10000 + m * 100 + d ≤ 22620411

/-- Models pd.to_datetime of one string under the fixed format YYYYMMDD:
CPython strptime takes exactly four year digits then a greedy one-or-two
digit month and day consuming the whole string (so only all-digit strings
of length six to eight can match), then validates the calendar date;
pandas further bounds the result to the Timestamp range. -/
def parseYMD (s : String) : Option (Nat × Nat × Nat) :=
  let cs := s.toList
  if cs.all Char.isDigit ∧ 6 ≤ cs.length ∧ cs.length ≤ 8 then
    let y := digitsToNat (cs.take 4)
    let rest := cs.drop 4
    let mLen := if cs.length = 6 then 1 else 2
    let m := digitsToNat (rest.take mLen)
    let d := digitsToNat (rest.drop mLen)
    if validYMD y m d then some (y, m, d) else none
  else none

/-- The per-row date strings derived by step 2 of preprocess_data: the
contract day rendered by str() and zero-filled to two digits, appended
after the contract year-month rendered by str(). -/
def derivedDateStrs (df : Table) : Except PErr (List String) :=
  match df.getCol? "계약일", df.getCol? "계약년월" with
  | some days, some yms =>
    .ok (List.zipWith (fun ym d => pythonStr ym ++ zfill2 (pythonStr d)) yms days)
  | _, _ => .error .keyError

/-- Embeds step 2 of preprocess_data of src/app.py: store the zero-filled
day strings as a new column, then parse the concatenated strings with
pd.to_datetime under format YYYYMMDD into a new date column; a parse
failure anywhere raises for the whole table. -/
def dateStep (df : Table) : Except PErr Table :=
  match df.getCol? "계약일", derivedDateStrs df with
  | some days, .ok dateStrs =>
    let df1 := setCol df "계약일_str" (days.map (fun d => Val.str (zfill2 (pythonStr d))))
    match traverseOpt (fun str =>
        (parseYMD str).map (fun t => Val.date t.1 t.2.1 t.2.2)) dateStrs with
    | some dates => .ok (setCol df1 "거래일자" dates)
    | none => .error .dateParseError
  | _, _ => .error .keyError

/-- A cell as a rational where possible: some (some q) for numbers,
some none for missing (NaN arithmetic propagates), none for strings
(arithmetic on an object column of strings raises TypeError).  The
infinities do not occur as inputs of the pipeline's divisions. -/
def toRatOrNa : Val → Option (Option Frac)
  | .int n => some (some (Frac.ofInt n))
  | .num q => some (some q)
  | .na => some none
  | _ => none

/-- Pandas cell division: NaN propagates, division by zero produces a
signed infinity (or NaN for zero over zero), strings raise TypeError. -/
def valDiv (a p : Val) : Option Val :=
  match toRatOrNa a, toRatOrNa p with
  | some (some qa), some (some qp) =>
    some (if qp.num = 0 then
            (if qa.num = 0 then Val.na else if qa.num > 0 then Val.inf else Val.ninf)
          else Val.num (fracDiv qa qp))
  | some _, some _ => some Val.na
  | _, _ => none

/-- Embeds step 3 of preprocess_data of src/app.py: the area column
divided by 3.3 stored as the pyeong column. -/
def pyeongStep (df : Table) : Except PErr Table :=
  match df.getCol? "전용면적(㎡)" with
  | none => .error .keyError
  | some areas =>
    match traverseOpt (fun v => valDiv v (Val.num ⟨33, 10⟩)) areas with
    | some py => .ok (setCol df "평수" py)
    | none => .error .typeError

/-- Embeds step 4 of preprocess_data of src/app.py: amount divided by the
pyeong column, stored as the price-per-pyeong column. -/
def priceStep (df : Table) : Except PErr Table :=
  match df.getCol? "거래금액(만원)", df.getCol? "평수" with
  | some amts, some pys =>
    match traverseOpt (fun p => valDiv p.1 p.2) (amts.zip pys) with
    | some ppp => .ok (setCol df "평당가(만원)" ppp)
    | none => .error .typeError
  | _, _ => .error .keyError

/-- The pipeline through the cancellation filter and the amount coercion,
carrying the session update of the filter. -/
def afterAmount (df : Table) (s : Sess) : Except PErr (Table × Sess) :=
  match amountStep (cancelFilter df s).1 with
  | .ok df2 => .ok (df2, (cancelFilter df s).2)
  | .error e => .error e

/-- Embeds preprocess_data of src/app.py end to end: cancellation filter,
amount coercion, date derivation, pyeong and price-per-pyeong columns;
the session carries the stored cancelled count across the call. -/
def preprocess_data (df : Table) (s : Sess) : Except PErr (Table × Sess) :=
  match afterAmount df s with
  | .error e => .error e
  | .ok (df2, s1) =>
    match dateStep df2 with
    | .error e => .error e
    | .ok df3 =>
      match pyeongStep df3 with
      | .error e => .error e
      | .ok df4 =>
        match priceStep df4 with
        | .error e => .error e
        | .ok df5 => .ok (df5, s1)

/-- Decidable equality for Except results, needed to evaluate the
pipeline on concrete witnesses. -/
instance {ε α : Type} [DecidableEq ε] [DecidableEq α] : DecidableEq (Except ε α) := fun a b =>
  match a, b with
  | .ok x, .ok y =>
    if h : x = y then isTrue (by rw [h]) else isFalse (by intro hc; cases hc; exact h rfl)
  | .error x, .error y =>
    if h : x = y then isTrue (by rw [h]) else isFalse (by intro hc; cases hc; exact h rfl)
  | .ok _, .error _ => isFalse (by intro hc; cases hc)
  | .error _, .ok _ => isFalse (by intro hc; cases hc)

/-! Concrete tables used by witnesses. -/

/-- A one-row table in the new MOLIT API shape. -/
def dfNewSample : Table :=
  ⟨["sggCd", "aptNm", "excluUseAr", "dealYear", "dealMonth", "dealDay",
    "dealAmount", "floor", "buildYear"],
   [[.str "11380", .str "아파트", .int 84, .int 2024, .int 7, .int 15,
     .str "1,234,567", .int 5, .int 2010]]⟩

/-- The legacy-shaped output of transform_to_legacy on dfNewSample. -/
def tSample : Table :=
  ⟨legacyColsOrder,
   [[.int 1, .str "서울특별시 은평구", .str "아파트", .int 84, .int 202407,
     .int 15, .int 1234567, .int 5, .int 2010, .str ""]]⟩

/-! Helper lemmas. -/

/-- A table whose columns include the legacy indicators is classified old. -/
theorem detect_format_eq_old (df : Table)
    (h : ∀ c ∈ legacy_indicators, c ∈ df.cols) :
    detect_format df = .ok .old := by
  unfold detect_format
  rw [if_pos]
  simp only [List.all_eq_true, decide_eq_true_eq]
  exact h

/-- A traversal fails as soon as some element fails. -/
theorem traverseOpt_eq_none {f : α → Option β} {l : List α}
    (h : ∃ a ∈ l, f a = none) : traverseOpt f l = none := by
  induction l with
  | nil => simp at h
  | cons a as ih =>
    obtain ⟨b, hb, hfb⟩ := h
    rcases List.mem_cons.mp hb with hb | hb
    · subst hb
      simp [traverseOpt, hfb]
    · have := ih ⟨b, hb, hfb⟩
      simp only [traverseOpt, this]
      cases f a <;> rfl

/-! Theorems for the claims. -/

/-- C10: for the input None, get_sigungu_name returns the empty string
without a warning, and is_valid_region_code returns False; neither
raises (both are total functions of the embedding). -/
theorem none_region_code_handling :
    get_sigungu_name none = ("", false) ∧ is_valid_region_code none = false :=
  ⟨rfl, rfl⟩

/-- C8: for every non-None region code, lookup normalizes the code by
string coercion, trimming and dropping any fractional part; a registered
normalized code yields the mapped name with no warning (11380 maps to the
Eunpyeong district name, also from the float artifact form), an unknown
code yields the normalized code string itself with a non-fatal warning
(99999 stays 99999), and the function never raises (it is total and
always agrees with the registry membership test). -/
theorem get_sigungu_name_spec (v : Val) :
    ((get_sigungu_name (some v)).2 = true ↔ is_valid_region_code (some v) = false) ∧
    (is_valid_region_code (some v) = false →
      get_sigungu_name (some v) = (normalizeCode v, true)) ∧
    (∀ nm, REGION_CODE_MAP.lookup (normalizeCode v) = some nm →
      get_sigungu_name (some v) = (nm, false)) ∧
    normalizeCode v =
      (let code_str := pyStrip (pythonStr v)
       if strContainsDot code_str then takeBeforeDot code_str else code_str) ∧
    get_sigungu_name (some (Val.str "11380")) = ("서울특별시 은평구", false) ∧
    get_sigungu_name (some (Val.str " 11380.0 ")) = ("서울특별시 은평구", false) ∧
    get_sigungu_name (some (Val.str "99999")) = ("99999", true) := by
  refine ⟨?_, ?_, ?_, rfl, by decide, by decide, by decide⟩
  · unfold get_sigungu_name is_valid_region_code
    cases h : REGION_CODE_MAP.lookup (normalizeCode v) <;> simp [h]
  · unfold get_sigungu_name is_valid_region_code
    cases h : REGION_CODE_MAP.lookup (normalizeCode v) <;> simp [h]
  · intro nm hnm
    unfold get_sigungu_name
    simp [hnm]

/-- Witness for C8 at concrete inputs. -/
theorem get_sigungu_name_spec_witness :
    get_sigungu_name (some (Val.str "99999")) = (normalizeCode (Val.str "99999"), true) ∧
    get_sigungu_name (some (Val.int 11380)) = ("서울특별시 은평구", false) :=
  ⟨(get_sigungu_name_spec (Val.str "99999")).2.1 (by decide),
   (get_sigungu_name_spec (Val.int 11380)).2.2.1 "서울특별시 은평구" (by decide)⟩

/-- C5 counterexample: a missing deal-amount value yields 0 but emits no
warning, contradicting the claim that a warning is emitted for every
missing or unparsable value. -/
theorem clean_deal_amount_missing_no_warning :
    clean_deal_amount Val.na = (0, false) := rfl

/-- C5 amended: the amount cleaner strips commas and surrounding
whitespace and parses the result with Python int semantics, so the string
1,234,567 yields 1234567; a missing value yields 0 silently with no
warning; a non-missing unparsable value yields 0 with a warning; and rows
are never dropped: the transformed table has exactly as many rows as its
input. -/
theorem clean_deal_amount_amended :
    clean_deal_amount (Val.str "1,234,567") = (1234567, false) ∧
    clean_deal_amount Val.na = (0, false) ∧
    (∀ v : Val, v ≠ Val.na →
      clean_deal_amount v =
        (match pythonInt (pyStrip (removeCommas (pythonStr v))) with
         | some n => (n, false)
         | none => (0, true))) ∧
    (∀ (df : Table) (w : List String) (t : Table),
      (transform_to_legacy df w).1 = .ok t → t.rows.length = df.rows.length) := by
  refine ⟨by decide, rfl, ?_, ?_⟩
  · intro v hv
    unfold clean_deal_amount
    rw [if_neg hv]
  · intro df w t ht
    by_cases hm : requiredColumns.filter (fun c => decide (c ∉ df.cols)) ≠ []
    · simp only [transform_to_legacy] at ht
      rw [if_pos hm] at ht
      exact absurd ht (by simp)
    · simp only [transform_to_legacy] at ht
      rw [if_neg hm] at ht
      cases ht
      simp

/-- Witness for C5 at concrete inputs. -/
theorem clean_deal_amount_amended_witness :
    clean_deal_amount (Val.str "abc") = (0, true) ∧
    clean_deal_amount (Val.str " 1,234 ") = (1234, false) ∧
    tSample.rows.length = dfNewSample.rows.length :=
  ⟨(clean_deal_amount_amended.2.2.1 (Val.str "abc") (by decide)).trans (by decide),
   (clean_deal_amount_amended.2.2.1 (Val.str " 1,234 ") (by decide)).trans (by decide),
   clean_deal_amount_amended.2.2.2 dfNewSample [] tSample (by decide)⟩

/-- C1: whenever the legacy signature columns are all present,
detect_format classifies the table as old, even when the new-API
signature is also fully present; the new classification can only arise
when the legacy signature is not fully present. -/
theorem detect_format_legacy_priority (df : Table)
    (h : ∀ c ∈ legacy_indicators, c ∈ df.cols) :
    detect_format df = .ok .old ∧
    (∀ df2 : Table, detect_format df2 = .ok FileFormat.new →
      ¬ ∀ c ∈ legacy_indicators, c ∈ df2.cols) := by
  refine ⟨detect_format_eq_old df h, ?_⟩
  intro df2 h2 hleg
  rw [detect_format_eq_old df2 hleg] at h2
  exact absurd h2 (by simp)

/-- A table carrying both the legacy and the new-API signatures. -/
def bothSignaturesTable : Table :=
  ⟨["시군구", "단지명", "거래금액(만원)", "sggCd", "aptNm", "dealAmount"],
   [[.str "서울특별시 은평구", .str "아파트", .int 50000, .str "11380",
     .str "아파트", .str "50,000"]]⟩

/-- Witness for C1: a table with both signatures present is still old. -/
theorem detect_format_legacy_priority_witness :
    (∀ c ∈ legacy_indicators, c ∈ bothSignaturesTable.cols) ∧
    (∀ c ∈ new_api_indicators, c ∈ bothSignaturesTable.cols) ∧
    detect_format bothSignaturesTable = .ok .old :=
  ⟨by decide, by decide,
   (detect_format_legacy_priority bothSignaturesTable (by decide)).1⟩

/-- C7: auto_transform on a table whose columns include the legacy
signature returns the very same table, with no transformation and no new
warnings. -/
theorem auto_transform_legacy_noop (df : Table) (w : List String)
    (h : ∀ c ∈ legacy_indicators, c ∈ df.cols) :
    auto_transform df w = (.ok df, w) := by
  unfold auto_transform
  rw [detect_format_eq_old df h]

/-- A one-row legacy-shaped table. -/
def legacySampleTable : Table :=
  ⟨["NO", "시군구", "단지명", "전용면적(㎡)", "계약년월", "계약일",
    "거래금액(만원)", "층", "건축년도", "해제사유발생일"],
   [[.int 1, .str "서울특별시 은평구 불광동", .str "아파트", .num ⟨594, 10⟩,
     .int 202407, .int 15, .int 50000, .int 5, .int 2010, .str "-"]]⟩

/-- Witness for C7 at a concrete legacy table. -/
theorem auto_transform_legacy_noop_witness :
    auto_transform legacySampleTable [] = (.ok legacySampleTable, []) :=
  auto_transform_legacy_noop legacySampleTable [] (by decide)

/-- Missing required columns force the KeyError, for any rows and warnings. -/
theorem transform_to_legacy_eq_error (cols : List String) (rows : List (List Val))
    (w : List String)
    (hm : requiredColumns.filter (fun c => decide (c ∉ cols)) ≠ []) :
    transform_to_legacy ⟨cols, rows⟩ w =
      (.error (.keyError (requiredColumns.filter (fun c => decide (c ∉ cols)))), w) := by
  unfold transform_to_legacy
  simp only
  rw [if_pos hm]

/-- C2: when at least one of the nine required new-API columns is absent,
transform_to_legacy fails with a KeyError whose list is exactly the
absent required columns; the failure is determined by the column set
alone, before any row is processed; cdealDay is not required, and a table
with all nine required columns succeeds whether or not cdealDay is
present. -/
theorem transform_to_legacy_missing_columns (df : Table) (w : List String)
    (h : ∃ c ∈ requiredColumns, c ∉ df.cols) :
    (transform_to_legacy df w).1 =
      .error (.keyError (requiredColumns.filter (fun c => decide (c ∉ df.cols)))) ∧
    (∀ c, c ∈ requiredColumns.filter (fun c => decide (c ∉ df.cols)) ↔
      c ∈ requiredColumns ∧ c ∉ df.cols) ∧
    "cdealDay" ∉ requiredColumns ∧
    (∀ (rows2 : List (List Val)) (w2 : List String),
      (transform_to_legacy ⟨df.cols, rows2⟩ w2).1 =
        .error (.keyError (requiredColumns.filter (fun c => decide (c ∉ df.cols))))) ∧
    (∀ (df2 : Table) (w2 : List String), (∀ c ∈ requiredColumns, c ∈ df2.cols) →
      ∃ t, (transform_to_legacy df2 w2).1 = .ok t) := by
  have hm : requiredColumns.filter (fun c => decide (c ∉ df.cols)) ≠ [] := by
    obtain ⟨c, hc, hnc⟩ := h
    exact List.ne_nil_of_mem (List.mem_filter.mpr ⟨hc, by simpa using hnc⟩)
  refine ⟨?_, ?_, by decide, ?_, ?_⟩
  · rw [show df = ⟨df.cols, df.rows⟩ from rfl, transform_to_legacy_eq_error df.cols df.rows w hm]
  · intro c
    simp [List.mem_filter]
  · intro rows2 w2
    rw [transform_to_legacy_eq_error df.cols rows2 w2 hm]
  · intro df2 w2 hall
    have hm2 : requiredColumns.filter (fun c => decide (c ∉ df2.cols)) = [] := by
      rw [List.filter_eq_nil_iff]
      intro c hc
      simpa using hall c hc
    refine ⟨⟨legacyColsOrder, df2.rows.enum.map (fun p => transformRow df2.cols p.1 p.2)⟩, ?_⟩
    unfold transform_to_legacy
    simp only
    rw [if_neg (not_ne_iff.mpr hm2)]

/-- A table missing most required new-API columns. -/
def missingColsTable : Table := ⟨["sggCd", "aptNm", "umdNm"], [[.str "11380", .str "아파트", .str "불광동"]]⟩

/-- Witness for C2 at a concrete table missing seven required columns. -/
theorem transform_to_legacy_missing_columns_witness :
    (transform_to_legacy missingColsTable []).1 =
      .error (.keyError ["excluUseAr", "dealYear", "dealMonth", "dealDay",
        "dealAmount", "floor", "buildYear"]) ∧
    "cdealDay" ∉ requiredColumns := by
  have h := transform_to_legacy_missing_columns missingColsTable []
    ⟨"excluUseAr", by decide, by decide⟩
  exact ⟨h.1.trans (by decide), h.2.2.1⟩

/-- C3: with the cancellation-date column present, the cancellation step
keeps exactly the rows whose cancellation cell is not judged cancelled,
stores as the count exactly the number of rows removed, and a cell is
judged cancelled precisely when it is non-missing and its stripped string
form is not one of the four placeholder literals. -/
theorem cancel_filter_removes_exactly_cancelled (df : Table) (s : Sess)
    (h : "해제사유발생일" ∈ df.cols) :
    (cancelFilter df s).1.cols = df.cols ∧
    (cancelFilter df s).1.rows =
      df.rows.filter (fun r => !(is_cancelled (cancelCell df.cols r))) ∧
    (cancelFilter df s).2.cancelled_count =
      some (df.rows.length - (cancelFilter df s).1.rows.length) ∧
    (∀ v : Val, is_cancelled v = true ↔
      (v ≠ Val.na ∧ pyStrip (pythonStr v) ∉ (["-", "", "nan", "None"] : List String))) := by
  have hlen := List.length_eq_length_filter_add
    (l := df.rows) (fun r => is_cancelled (cancelCell df.cols r))
  refine ⟨?_, ?_, ?_, ?_⟩
  · unfold cancelFilter
    rw [if_pos h]
    split
    · rfl
    · rfl
  · unfold cancelFilter
    rw [if_pos h]
    split
    · rfl
    · rename_i hz
      have h0 : (df.rows.filter (fun r => is_cancelled (cancelCell df.cols r))).length = 0 := by
        omega
      have hall : ∀ r ∈ df.rows, ¬ is_cancelled (cancelCell df.cols r) = true := by
        rw [← List.filter_eq_nil_iff]
        exact List.eq_nil_of_length_eq_zero h0
      exact ((List.filter_eq_self).mpr (by simpa using hall)).symm
  · unfold cancelFilter
    rw [if_pos h]
    split
    · rename_i hpos
      simp only
      congr 1
      omega
    · rename_i hz
      simp only
      congr 1
      omega
  · intro v
    unfold is_cancelled
    by_cases hv : v = Val.na
    · simp [hv]
    · rw [if_neg hv]
      by_cases hmem : pyStrip (pythonStr v) ∈ (["-", "", "nan", "None"] : List String)
      · simp [hmem, hv]
      · simp [hmem, hv]

/-- A two-row legacy table with one cancelled transaction. -/
def cancelSampleTable : Table :=
  ⟨["시군구", "단지명", "전용면적(㎡)", "계약년월", "계약일", "거래금액(만원)",
    "층", "건축년도", "해제사유발생일"],
   [[.str "서울특별시 은평구", .str "가", .int 59, .int 202407, .int 15, .int 50000,
     .int 5, .int 2010, .str "-"],
    [.str "서울특별시 은평구", .str "나", .int 84, .int 202407, .int 16, .int 90000,
     .int 3, .int 2010, .str "2025-03-01"]]⟩

/-- Witness for C3 at a concrete table: the cancelled row is removed, the
kept row survives, and the stored count is one. -/
theorem cancel_filter_removes_exactly_cancelled_witness :
    (cancelFilter cancelSampleTable ⟨none⟩).1.rows =
      cancelSampleTable.rows.filter
        (fun r => !(is_cancelled (cancelCell cancelSampleTable.cols r))) ∧
    (cancelFilter cancelSampleTable ⟨none⟩).2.cancelled_count = some 1 ∧
    (cancelFilter cancelSampleTable ⟨none⟩).1.rows.length = 1 ∧
    is_cancelled (Val.str "2025-03-01") = true ∧
    is_cancelled (Val.str "-") = false := by
  have h := cancel_filter_removes_exactly_cancelled cancelSampleTable ⟨none⟩ (by decide)
  refine ⟨h.2.1, ?_, by decide, by decide, by decide⟩
  exact h.2.2.1.trans (by decide)

/-- C4: the preprocessing date derivation forms, for every row, the
string made of the year-month cell rendered by str() followed by the
zero-filled two-digit day string, and parses it under the fixed format
YYYYMMDD; whenever any surviving row's string fails that parse, the whole
preprocessing run aborts with the fatal date parse error instead of
skipping the row. -/
theorem date_parse_failure_aborts_table (df : Table) (s : Sess)
    (df2 : Table) (s1 : Sess) (ss : List String)
    (h1 : afterAmount df s = .ok (df2, s1))
    (h2 : derivedDateStrs df2 = .ok ss)
    (h3 : ∃ str ∈ ss, parseYMD str = none) :
    preprocess_data df s = .error .dateParseError ∧
    (∀ days yms, df2.getCol? "계약일" = some days → df2.getCol? "계약년월" = some yms →
      ss = List.zipWith (fun ym d => pythonStr ym ++ zfill2 (pythonStr d)) yms days) := by
  have hdays : ∃ days, df2.getCol? "계약일" = some days := by
    unfold derivedDateStrs at h2
    cases hd : df2.getCol? "계약일" with
    | none => rw [hd] at h2; exact absurd h2 (by cases df2.getCol? "계약년월" <;> simp)
    | some days => exact ⟨days, rfl⟩
  have htrav : traverseOpt
      (fun str => (parseYMD str).map (fun t => Val.date t.1 t.2.1 t.2.2)) ss = none := by
    apply traverseOpt_eq_none
    obtain ⟨str, hmem, hp⟩ := h3
    exact ⟨str, hmem, by rw [hp]; rfl⟩
  obtain ⟨days, hd⟩ := hdays
  have hds : dateStep df2 = .error .dateParseError := by
    unfold dateStep
    rw [hd, h2]
    simp only [htrav]
  constructor
  · unfold preprocess_data
    rw [h1]
    simp only [hds]
  · intro days2 yms hd2 hy2
    unfold derivedDateStrs at h2
    rw [hd2, hy2] at h2
    injection h2 with h2'
    exact h2'.symm

/-- A legacy table whose year-month cell is the coercion sentinel 0. -/
def badDateTable : Table :=
  ⟨["시군구", "단지명", "전용면적(㎡)", "계약년월", "계약일", "거래금액(만원)",
    "층", "건축년도"],
   [[.str "서울특별시 은평구", .str "가", .int 59, .int 0, .int 5, .int 50000,
     .int 5, .int 2010]]⟩

/-- Witness for C4: year-month 0 and day 5 yield the three-character
string 005, which fails the parse, so the whole table aborts. -/
theorem date_parse_failure_aborts_table_witness :
    preprocess_data badDateTable ⟨none⟩ = .error .dateParseError :=
  (date_parse_failure_aborts_table badDateTable ⟨none⟩ badDateTable ⟨none⟩ ["005"]
    (by decide) (by decide) ⟨"005", by decide, by decide⟩).1

/-- C6 counterexample: after a run that removed one cancelled
transaction, a run on a legacy-shaped table with no cancellation-date
column (hence zero cancelled transactions) completes without error but
leaves the stored count at the stale value one, so the reported cancelled
count is one, not zero. -/
def noCancelColTable : Table :=
  ⟨["시군구", "단지명", "전용면적(㎡)", "계약년월", "계약일", "거래금액(만원)",
    "층", "건축년도"],
   [[.str "서울특별시 은평구", .str "가", .int 59, .int 202407, .int 15, .int 50000,
     .int 5, .int 2010]]⟩

/-- C6 counterexample theorem, see noCancelColTable. -/
theorem preprocess_absent_cancel_column_stale_count :
    ((preprocess_data cancelSampleTable ⟨none⟩).toOption.map (fun p => p.2)) =
      some ⟨some 1⟩ ∧
    ((preprocess_data noCancelColTable ⟨some 1⟩).toOption.map
      (fun p => reportedCount p.2)) = some 1 ∧
    (legacy_indicators.all (fun c => decide (c ∈ noCancelColTable.cols))) = true ∧
    "해제사유발생일" ∉ noCancelColTable.cols ∧
    noCancelColTable.rows.filter
      (fun r => is_cancelled (cancelCell noCancelColTable.cols r)) = [] := by
  refine ⟨by decide, by decide, by decide, by decide, by decide⟩

/-- C6 amended: on a table with zero cancelled transactions the
cancellation step never raises and removes no rows; when the
cancellation-date column is present the stored count becomes zero, but
when the column is absent the previously stored session count is left
unchanged, so the reported count is zero only in a session where no prior
run stored a positive count; any failure of the remaining pipeline comes
from later steps unrelated to cancellation and still leaves the count
rule intact on success. -/
theorem preprocess_zero_cancelled_amended (df : Table) (s : Sess)
    (h : ∀ r ∈ df.rows, is_cancelled (cancelCell df.cols r) = false) :
    cancelFilter df s = (df, if "해제사유발생일" ∈ df.cols then ⟨some 0⟩ else s) ∧
    (∀ out s1, preprocess_data df s = .ok (out, s1) →
      s1 = if "해제사유발생일" ∈ df.cols then ⟨some 0⟩ else s) := by
  have hfe : df.rows.filter (fun r => is_cancelled (cancelCell df.cols r)) = [] :=
    List.filter_eq_nil_iff.mpr (fun r hr => by simp [h r hr])
  have hcf : cancelFilter df s = (df, if "해제사유발생일" ∈ df.cols then ⟨some 0⟩ else s) := by
    unfold cancelFilter
    by_cases hcol : "해제사유발생일" ∈ df.cols
    · rw [if_pos hcol, if_pos hcol, if_neg (by rw [hfe]; simp)]
    · rw [if_neg hcol, if_neg hcol]
  refine ⟨hcf, ?_⟩
  intro out s1 hp
  unfold preprocess_data afterAmount at hp
  rw [hcf] at hp
  cases ham : amountStep df with
  | error e => simp only [ham] at hp; exact Except.noConfusion hp
  | ok dfB =>
    simp only [ham] at hp
    cases hds : dateStep dfB with
    | error e => simp only [hds] at hp; exact Except.noConfusion hp
    | ok dfC =>
      simp only [hds] at hp
      cases hpy : pyeongStep dfC with
      | error e => simp only [hpy] at hp; exact Except.noConfusion hp
      | ok dfD =>
        simp only [hpy] at hp
        cases hpr : priceStep dfD with
        | error e => simp only [hpr] at hp; exact Except.noConfusion hp
        | ok dfE =>
          simp only [hpr, Except.ok.injEq, Prod.mk.injEq] at hp
          exact hp.2.symm

/-- Witness for C6 amended at a concrete table whose cancellation column
holds only placeholder values. -/
def allPlaceholderTable : Table :=
  ⟨["시군구", "단지명", "전용면적(㎡)", "계약년월", "계약일", "거래금액(만원)",
    "층", "건축년도", "해제사유발생일"],
   [[.str "서울특별시 은평구", .str "가", .int 59, .int 202407, .int 15, .int 50000,
     .int 5, .int 2010, .str "-"]]⟩

/-- Witness for C6 amended. -/
theorem preprocess_zero_cancelled_amended_witness :
    cancelFilter allPlaceholderTable ⟨none⟩ = (allPlaceholderTable, ⟨some 0⟩) := by
  have h := (preprocess_zero_cancelled_amended allPlaceholderTable ⟨none⟩ (by decide)).1
  exact h.trans (by rw [if_pos (by decide)])

/-- The first cell of every transformed row is the fresh one-based row
number, independently of the row's content. -/
theorem transform_no_col_aux (cols : List String) (l : List (List Val)) (n : Nat) :
    ((List.enumFrom n l).map (fun p => transformRow cols p.1 p.2)).map
      (fun r => r.getD 0 Val.na) =
    (List.range' n l.length).map (fun i => Val.int (Int.ofNat i + 1)) := by
  induction l generalizing n with
  | nil => rfl
  | cons a as ih =>
    simp only [List.enumFrom, List.map_cons, List.length_cons, List.range']
    rw [ih]
    rfl

/-- C9: the transformed table produced by transform_to_legacy is a pure
deterministic function of the input table values alone: it does not
depend on the ambient warning log (the only state the function touches),
so two calls on equal-valued inputs, in any order and after any prior
calls, give outputs with identical values in every column; and the NO
column of a successful output is always the fresh sequence one to N,
never carried over from any source column. -/
theorem transform_to_legacy_pure_fresh_rownumbers (df : Table) (w1 w2 : List String) :
    (transform_to_legacy df w1).1 = (transform_to_legacy df w2).1 ∧
    (∀ t, (transform_to_legacy df w1).1 = .ok t →
      t.getCol? "NO" =
        some ((List.range df.rows.length).map (fun i => Val.int (Int.ofNat i + 1)))) := by
  constructor
  · by_cases hm : requiredColumns.filter (fun c => decide (c ∉ df.cols)) ≠ []
    · rw [show df = ⟨df.cols, df.rows⟩ from rfl,
        transform_to_legacy_eq_error df.cols df.rows w1 hm,
        transform_to_legacy_eq_error df.cols df.rows w2 hm]
    · unfold transform_to_legacy
      simp only
      rw [if_neg hm, if_neg hm]
  · intro t ht
    by_cases hm : requiredColumns.filter (fun c => decide (c ∉ df.cols)) ≠ []
    · rw [show df = ⟨df.cols, df.rows⟩ from rfl,
        transform_to_legacy_eq_error df.cols df.rows w1 hm] at ht
      exact absurd ht (by simp)
    · unfold transform_to_legacy at ht
      simp only at ht
      rw [if_neg hm] at ht
      have ht2 : Except.ok (ε := TError)
          (⟨legacyColsOrder, df.rows.enum.map (fun p => transformRow df.cols p.1 p.2)⟩ : Table)
          = Except.ok t := ht
      injection ht2 with ht3
      rw [← ht3]
      unfold Table.getCol?
      rw [show legacyColsOrder.indexOf? "NO" = some 0 from rfl]
      simp only
      rw [show df.rows.enum = List.enumFrom 0 df.rows from rfl,
        transform_no_col_aux df.cols df.rows 0, List.range_eq_range']

/-- Witness for C9 at a one-row new-API table: the transformed values do
not depend on the incoming warning state, and the NO column is the fresh
singleton one. -/
theorem transform_to_legacy_pure_fresh_rownumbers_witness :
    (transform_to_legacy dfNewSample []).1 = (transform_to_legacy dfNewSample ["prior"]).1 ∧
    tSample.getCol? "NO" = some [Val.int 1] := by
  refine ⟨(transform_to_legacy_pure_fresh_rownumbers dfNewSample [] ["prior"]).1, ?_⟩
  have h := (transform_to_legacy_pure_fresh_rownumbers dfNewSample [] ["prior"]).2
    tSample (by decide)
  exact h.trans (by decide)

end RealEstate
